import Mathlib

/-! Shallow embedding of the PCA9685 PWM driver scripts of the repository
(donkey_motor_test.py, demo_script.py, steering_calibration.py): a
register-level model of the smbus2 bus object, the prescale and duty-tick
conversions, the channel write operations, and the normalized
steering/throttle mapper, together with proofs about them.

Real arithmetic of the Python scripts is modelled with exact rationals;
Python int() is truncation toward zero, Python `%`/`&`/`>>` on integers are
the Euclidean (nonnegative-remainder) operations. -/

/-- Python int() applied to a real value: truncation toward zero. -/
def pyTrunc (q : ℚ) : ℤ := if 0 ≤ q then ⌊q⌋ else ⌈q⌉

/-- Python `x & 0xFF` on an arbitrary integer: the nonnegative residue mod 256
(Lean % on Int is Euclidean, hence agrees with Python for the positive
modulus 256). -/
def pyAnd255 (x : ℤ) : ℤ := x % 256

/-- Python `x >> 8`: arithmetic (floor) shift by 8; for the positive divisor
256, Euclidean division is floor division, hence agrees with Python. -/
def pyShr8 (x : ℤ) : ℤ := x / 256

/-- Python `x & 0x7F`: the nonnegative residue mod 128. -/
def pyAnd127 (x : ℤ) : ℤ := x % 128

/-- Python `a | b` on the nonnegative register byte values that occur in the
mode-register writes of the init sequence. -/
def pyOrByte (a b : ℤ) : ℤ := Int.ofNat (a.toNat ||| b.toNat)

/-- Errors of the bus layer. TransferError models a failed smbus2 transfer,
in particular any register access attempted after the bus was closed.
InvalidChannel appears only in the specification error taxonomy; no code
path of the repository ever produces it. -/
inductive BusError where
  | TransferError
  | InvalidChannel
deriving DecidableEq

/-- State of the smbus2 SMBus object: whether the handle is open, and the
last byte value written to each register address. -/
structure Bus where
  isOpen : Bool
  regs : ℤ → ℤ

/-- smbus2 write_byte_data: records the value at the register; fails when the
bus handle has been closed. -/
def Bus.write_byte_data (b : Bus) (reg val : ℤ) : Except BusError Bus :=
  if b.isOpen then
    .ok { b with regs := fun r => if r = reg then val else b.regs r }
  else .error .TransferError

/-- smbus2 read_byte_data: reads the current register value; fails when the
bus handle has been closed. -/
def Bus.read_byte_data (b : Bus) (reg : ℤ) : Except BusError ℤ :=
  if b.isOpen then .ok (b.regs reg) else .error .TransferError

/-- smbus2 close: clears the handle; a second close is a no-op. -/
def Bus.close (b : Bus) : Bus := { b with isOpen := false }

/-- The PCA9685 wrapper object common to all three scripts: an open bus, the
device address (default 0x40) and the operating frequency (default 60). -/
structure PCA9685 where
  bus : Bus
  address : ℤ
  frequency : ℚ

/-- The prescale computation of init_pca9685 (identical in all three
scripts): int(25000000.0 / (4096.0 * self.frequency) - 1.0). -/
def prescale (frequency : ℚ) : ℤ := pyTrunc (25000000 / (4096 * frequency) - 1)

/-- PCA9685.init_pca9685 (identical in all three scripts): wake write, mode
register read, sleep-mode write, prescale write to 0xFE, mode restore, and
restart-bit write. -/
def PCA9685.init_pca9685 (p : PCA9685) : Except BusError PCA9685 := do
  let b1 ← p.bus.write_byte_data 0x00 0x00
  let old_mode ← b1.read_byte_data 0x00
  let sleep_mode := pyOrByte (pyAnd127 old_mode) 0x10
  let b2 ← b1.write_byte_data 0x00 sleep_mode
  let b3 ← b2.write_byte_data 0xFE (prescale p.frequency)
  let b4 ← b3.write_byte_data 0x00 old_mode
  let b5 ← b4.write_byte_data 0x00 (pyOrByte old_mode 0x20)
  pure { p with bus := b5 }

/-- The clamp at the head of donkey_motor_test PCA9685.set_pulse:
pulse widths below 0.5 become 0.5, above 2.5 become 2.5. -/
def clampPulse (pulse_ms : ℚ) : ℚ :=
  if pulse_ms < 0.5 then 0.5 else if pulse_ms > 2.5 then 2.5 else pulse_ms

/-- The millisecond-to-tick conversion shared by every set_pulse in the
repository: pulse_length = 1000000.0 / frequency / 4096.0 and
pulse_value = int(pulse_ms * 1000.0 / pulse_length). -/
def dutyTicks (frequency pulse_ms : ℚ) : ℤ :=
  pyTrunc (pulse_ms * 1000 / (1000000 / frequency / 4096))

/-- PCA9685.set_pwm of donkey_motor_test.py and steering_calibration.py:
four consecutive byte writes starting at 0x06 + 4*channel, with no
validation of the channel index. -/
def PCA9685.set_pwm (p : PCA9685) (channel onTicks offTicks : ℤ) :
    Except BusError PCA9685 := do
  let base_reg := 0x06 + 4 * channel
  let b1 ← p.bus.write_byte_data base_reg (pyAnd255 onTicks)
  let b2 ← b1.write_byte_data (base_reg + 1) (pyShr8 onTicks)
  let b3 ← b2.write_byte_data (base_reg + 2) (pyAnd255 offTicks)
  let b4 ← b3.write_byte_data (base_reg + 3) (pyShr8 offTicks)
  pure { p with bus := b4 }

/-- PCA9685.set_pulse of donkey_motor_test.py: clamps to [0.5, 2.5],
converts the clamped width to ticks, and calls set_pwm with ON fixed at 0. -/
def PCA9685.set_pulse (p : PCA9685) (channel : ℤ) (pulse_ms : ℚ) :
    Except BusError PCA9685 :=
  p.set_pwm channel 0 (dutyTicks p.frequency (clampPulse pulse_ms))

/-- PCA9685.set_pulse of demo_script.py: the same tick conversion but with
no clamping; writes the four channel registers inline (ON = 0). -/
def PCA9685.demo_set_pulse (p : PCA9685) (channel : ℤ) (pulse_ms : ℚ) :
    Except BusError PCA9685 := do
  let pulse_value := dutyTicks p.frequency pulse_ms
  let base_reg := 0x06 + 4 * channel
  let b1 ← p.bus.write_byte_data base_reg 0
  let b2 ← b1.write_byte_data (base_reg + 1) 0
  let b3 ← b2.write_byte_data (base_reg + 2) (pyAnd255 pulse_value)
  let b4 ← b3.write_byte_data (base_reg + 3) (pyShr8 pulse_value)
  pure { p with bus := b4 }

/-- One iteration of the loop body of PCA9685.stop_all_channels: the four
registers of one channel are written to 0. -/
def PCA9685.stop_channel (p : PCA9685) (channel : ℤ) : Except BusError PCA9685 := do
  let base_reg := 0x06 + 4 * channel
  let b1 ← p.bus.write_byte_data base_reg 0
  let b2 ← b1.write_byte_data (base_reg + 1) 0
  let b3 ← b2.write_byte_data (base_reg + 2) 0
  let b4 ← b3.write_byte_data (base_reg + 3) 0
  pure { p with bus := b4 }

/-- PCA9685.stop_all_channels: for channel in range(16), write all four PWM
registers of the channel to 0. -/
def PCA9685.stop_all_channels (p : PCA9685) : Except BusError PCA9685 :=
  (List.range 16).foldlM (fun acc c => acc.stop_channel (c : ℤ)) p

/-- PCA9685.close: closes the underlying bus handle. -/
def PCA9685.close (p : PCA9685) : PCA9685 := { p with bus := p.bus.close }

/-- The clamp of a normalized command to [-1, 1] at the head of
DonkeyCarController.set_steering and set_throttle. -/
def clampCmd (x : ℚ) : ℚ := if x < -1 then -1 else if x > 1 then 1 else x

/-- DonkeyCarController of donkey_motor_test.py: the PWM object plus the
channel assignments and pulse-width calibration fields. -/
structure DonkeyCarController where
  pwm : PCA9685
  steering_channel : ℤ
  throttle_channel : ℤ
  steering_center : ℚ
  steering_range : ℚ
  throttle_neutral : ℚ
  throttle_range : ℚ

/-- The field values assigned in DonkeyCarController.__init__ (the
constructor additionally issues set_steering 0 and set_throttle 0). -/
def mkDonkeyCarController (pwm : PCA9685) : DonkeyCarController :=
  { pwm := pwm, steering_channel := 0, throttle_channel := 1,
    steering_center := 1.8, steering_range := 0.5,
    throttle_neutral := 1.5, throttle_range := 0.4 }

/-- The pulse width computed by DonkeyCarController.set_steering:
steering_center + clamped angle * steering_range. -/
def DonkeyCarController.steering_pulse (c : DonkeyCarController) (angle : ℚ) : ℚ :=
  c.steering_center + clampCmd angle * c.steering_range

/-- The pulse width computed by DonkeyCarController.set_throttle:
throttle_neutral + clamped speed * throttle_range. -/
def DonkeyCarController.throttle_pulse (c : DonkeyCarController) (speed : ℚ) : ℚ :=
  c.throttle_neutral + clampCmd speed * c.throttle_range

/-- DonkeyCarController.set_steering: clamp the angle, compute the pulse
width, forward it to set_pulse on the steering channel. -/
def DonkeyCarController.set_steering (c : DonkeyCarController) (angle : ℚ) :
    Except BusError DonkeyCarController := do
  let pwm ← c.pwm.set_pulse c.steering_channel (c.steering_pulse angle)
  pure { c with pwm := pwm }

/-- DonkeyCarController.set_throttle: clamp the speed, compute the pulse
width, forward it to set_pulse on the throttle channel. -/
def DonkeyCarController.set_throttle (c : DonkeyCarController) (speed : ℚ) :
    Except BusError DonkeyCarController := do
  let pwm ← c.pwm.set_pulse c.throttle_channel (c.throttle_pulse speed)
  pure { c with pwm := pwm }

/-- PiRacerDemo of demo_script.py: the PWM object plus channel assignments
and the calibrated pulse-width constants. -/
structure PiRacerDemo where
  pwm : PCA9685
  steering_channel : ℤ
  throttle_channel : ℤ
  steering_center : ℚ
  steering_left : ℚ
  steering_right : ℚ
  throttle_neutral : ℚ
  throttle_slow_forward : ℚ

/-- The field values assigned in PiRacerDemo.__init__ (the constructor
additionally issues stop()). -/
def mkPiRacerDemo (pwm : PCA9685) : PiRacerDemo :=
  { pwm := pwm, steering_channel := 0, throttle_channel := 1,
    steering_center := 1.8, steering_left := 1.55, steering_right := 2.05,
    throttle_neutral := 1.5, throttle_slow_forward := 1.67 }

/-- PiRacerDemo.set_steering: forwards a raw pulse width to the demo set_pulse
on the steering channel. -/
def PiRacerDemo.set_steering (d : PiRacerDemo) (pulse_ms : ℚ) :
    Except BusError PiRacerDemo := do
  let pwm ← d.pwm.demo_set_pulse d.steering_channel pulse_ms
  pure { d with pwm := pwm }

/-- PiRacerDemo.set_throttle: forwards a raw pulse width to the demo set_pulse
on the throttle channel. -/
def PiRacerDemo.set_throttle (d : PiRacerDemo) (pulse_ms : ℚ) :
    Except BusError PiRacerDemo := do
  let pwm ← d.pwm.demo_set_pulse d.throttle_channel pulse_ms
  pure { d with pwm := pwm }

/-- PiRacerDemo.stop: neutral throttle, then centered steering. -/
def PiRacerDemo.stop (d : PiRacerDemo) : Except BusError PiRacerDemo := do
  let d1 ← d.set_throttle d.throttle_neutral
  d1.set_steering d1.steering_center

/-- PiRacerDemo.cleanup: stop (two neutral pulse writes), a settle delay,
stop_all_channels, then close the bus. -/
def PiRacerDemo.cleanup (d : PiRacerDemo) : Except BusError PiRacerDemo := do
  let d1 ← d.stop
  let pwm1 ← d1.pwm.stop_all_channels
  pure { d1 with pwm := pwm1.close }

/-- A freshly opened bus with every register byte reading 0. -/
def freshBus : Bus := { isOpen := true, regs := fun _ => 0 }

/-- A PCA9685 on a fresh bus at the script address 0x40 and frequency 60. -/
def pca60 : PCA9685 := { bus := freshBus, address := 0x40, frequency := 60 }

/-- A PiRacerDemo controller over the fresh PCA9685. -/
def demo60 : PiRacerDemo := mkPiRacerDemo pca60

/-- Reduction of an Except bind on a success value. -/
theorem exceptBindOk {α β : Type} (a : α) (f : α → Except BusError β) :
    ((Except.ok a : Except BusError α) >>= f) = f a := rfl

/-- pyTrunc agrees with the floor on nonnegative arguments. -/
theorem pyTrunc_of_nonneg {q : ℚ} (h : 0 ≤ q) : pyTrunc q = ⌊q⌋ := if_pos h

/-- pyTrunc is monotone. -/
theorem pyTrunc_mono {q r : ℚ} (h : q ≤ r) : pyTrunc q ≤ pyTrunc r := by
  unfold pyTrunc
  split_ifs with h1 h2 h2
  · exact Int.floor_le_floor h
  · exact absurd (le_trans h1 h) h2
  · have hq : q ≤ 0 := le_of_not_le h1
    have hc : ⌈q⌉ ≤ 0 := by
      rw [Int.ceil_le]
      push_cast
      exact hq
    have hf : 0 ≤ ⌊r⌋ := by
      rw [Int.le_floor]
      push_cast
      exact h2
    exact le_trans hc hf
  · exact Int.ceil_le_ceil h

/-- The clamped pulse width always lies in [0.5, 2.5]. -/
theorem clampPulse_bounds (pulse_ms : ℚ) :
    (0.5 : ℚ) ≤ clampPulse pulse_ms ∧ clampPulse pulse_ms ≤ 2.5 := by
  unfold clampPulse
  split_ifs with h1 h2
  · norm_num
  · norm_num
  · constructor
    · linarith [le_of_not_lt h1]
    · linarith [le_of_not_lt h2]

/-- In-range pulse widths pass through the clamp unchanged. -/
theorem clampPulse_of_mem {pulse_ms : ℚ} (h1 : (0.5 : ℚ) ≤ pulse_ms)
    (h2 : pulse_ms ≤ 2.5) : clampPulse pulse_ms = pulse_ms := by
  unfold clampPulse
  rw [if_neg (not_lt.mpr h1), if_neg (not_lt.mpr h2)]

/-- Success characterization of set_pwm on an open bus: it always succeeds,
for every channel index, and the four registers starting at 0x06 + 4*channel
hold the four bytes of the on/off tick pair. -/
theorem set_pwm_ok (p : PCA9685) (ch onTicks offTicks : ℤ)
    (h : p.bus.isOpen = true) :
    ∃ q, p.set_pwm ch onTicks offTicks = .ok q ∧ q.bus.isOpen = true ∧
      q.frequency = p.frequency ∧ q.address = p.address ∧
      q.bus.regs (0x06 + 4 * ch) = pyAnd255 onTicks ∧
      q.bus.regs (0x06 + 4 * ch + 1) = pyShr8 onTicks ∧
      q.bus.regs (0x06 + 4 * ch + 2) = pyAnd255 offTicks ∧
      q.bus.regs (0x06 + 4 * ch + 3) = pyShr8 offTicks := by
  unfold PCA9685.set_pwm Bus.write_byte_data
  simp only [h, if_true, exceptBindOk]
  refine ⟨_, rfl, rfl, rfl, rfl, ?_, ?_, ?_, ?_⟩ <;>
    · simp only []
      split_ifs <;> first | rfl | (exfalso; omega)

/-- Success characterization of the demo-script set_pulse on an open bus:
ON registers are written 0 and the OFF registers hold the bytes of the
unclamped tick value. -/
theorem demo_set_pulse_ok (p : PCA9685) (ch : ℤ) (pulse_ms : ℚ)
    (h : p.bus.isOpen = true) :
    ∃ q, p.demo_set_pulse ch pulse_ms = .ok q ∧ q.bus.isOpen = true ∧
      q.bus.regs (0x06 + 4 * ch) = 0 ∧
      q.bus.regs (0x06 + 4 * ch + 1) = 0 ∧
      q.bus.regs (0x06 + 4 * ch + 2) = pyAnd255 (dutyTicks p.frequency pulse_ms) ∧
      q.bus.regs (0x06 + 4 * ch + 3) = pyShr8 (dutyTicks p.frequency pulse_ms) := by
  unfold PCA9685.demo_set_pulse Bus.write_byte_data
  simp only [h, if_true, exceptBindOk]
  refine ⟨_, rfl, rfl, ?_, ?_, ?_, ?_⟩ <;>
    · simp only []
      split_ifs <;> first | rfl | (exfalso; omega)

/-- Success characterization of one stop_all_channels loop iteration on an
open bus: the four registers of the channel become 0, every other register
keeps its previous value. -/
theorem stop_channel_ok (p : PCA9685) (c : ℤ) (h : p.bus.isOpen = true) :
    ∃ q, p.stop_channel c = .ok q ∧ q.bus.isOpen = true ∧
      (∀ r, q.bus.regs r = 0 ∨ q.bus.regs r = p.bus.regs r) ∧
      (∀ j : ℤ, 0 ≤ j → j ≤ 3 → q.bus.regs (0x06 + 4 * c + j) = 0) := by
  unfold PCA9685.stop_channel Bus.write_byte_data
  simp only [h, if_true, exceptBindOk]
  refine ⟨_, rfl, rfl, ?_, ?_⟩
  · intro r
    simp only []
    split_ifs <;> simp
  · intro j hj0 hj3
    simp only []
    split_ifs <;> first | rfl | (exfalso; omega)

/-- The stop_all_channels fold over any list of channel indices succeeds on
an open bus, leaves the bus open, only ever zeroes registers, and zeroes
all four registers of every channel in the list. -/
theorem stop_fold_ok (L : List ℕ) (p : PCA9685) (h : p.bus.isOpen = true) :
    ∃ q, (L.foldlM (fun acc c => acc.stop_channel (c : ℤ)) p) = .ok q ∧
      q.bus.isOpen = true ∧
      (∀ r, q.bus.regs r = 0 ∨ q.bus.regs r = p.bus.regs r) ∧
      (∀ c ∈ L, ∀ j : ℤ, 0 ≤ j → j ≤ 3 →
        q.bus.regs (0x06 + 4 * (c : ℤ) + j) = 0) := by
  induction L generalizing p with
  | nil =>
    refine ⟨p, rfl, h, fun r => Or.inr rfl, ?_⟩
    intro c hc
    exact absurd hc (List.not_mem_nil c)
  | cons c L ih =>
    obtain ⟨q1, hq1, hopen1, hpres1, hzero1⟩ := stop_channel_ok p (c : ℤ) h
    obtain ⟨q2, hq2, hopen2, hpres2, hzero2⟩ := ih q1 hopen1
    refine ⟨q2, ?_, hopen2, ?_, ?_⟩
    · simp only [List.foldlM_cons, hq1, exceptBindOk]
      exact hq2
    · intro r
      rcases hpres2 r with h2 | h2
      · exact Or.inl h2
      · rcases hpres1 r with h1 | h1
        · exact Or.inl (h2.trans h1)
        · exact Or.inr (h2.trans h1)
    · intro c2 hc2 j hj0 hj3
      rcases List.mem_cons.mp hc2 with hc2 | hc2
      · rcases hpres2 (0x06 + 4 * (c2 : ℤ) + j) with h2 | h2
        · exact h2
        · rw [h2, hc2]
          exact hzero1 j hj0 hj3
      · exact hzero2 c2 hc2 j hj0 hj3

/-- At the script frequency 60 the tick conversion is truncation of
pulse_ms * 245.76 (that is, pulse_ms * 6144/25). -/
theorem dutyTicks60_eq (y : ℚ) : dutyTicks 60 y = pyTrunc (y * (6144 / 25)) := by
  unfold dutyTicks
  congr 1
  norm_num
  ring

/-- At frequency 60, the tick value of a clamped pulse width lies in
[122, 614]. -/
theorem dutyTicks60_clamp_bounds (pm : ℚ) :
    122 ≤ dutyTicks 60 (clampPulse pm) ∧ dutyTicks 60 (clampPulse pm) ≤ 614 := by
  obtain ⟨h1, h2⟩ := clampPulse_bounds pm
  rw [dutyTicks60_eq]
  have h0 : (0 : ℚ) ≤ clampPulse pm * (6144 / 25) := by nlinarith
  rw [pyTrunc_of_nonneg h0]
  constructor
  · rw [Int.le_floor]
    push_cast
    nlinarith
  · have hle : clampPulse pm * (6144 / 25) ≤ (3072 / 5 : ℚ) := by nlinarith
    have hmono := Int.floor_le_floor hle
    have hfl : ⌊(3072 / 5 : ℚ)⌋ = 614 := by
      rw [Int.floor_eq_iff]
      norm_num
    omega

/-- C3 counterexample: at frequency 60, the code computes prescale 100 by
truncation (Python int), while round(25000000 / (4096 * 60) - 1) = 101, and
the init sequence writes the truncated value 100 to register 0xFE; so the
prescale is not the claimed rounded value. -/
theorem prescale_truncates_cex :
    prescale 60 = 100 ∧ round ((25000000 : ℚ) / (4096 * 60) - 1) = 101 ∧
      ∃ q, pca60.init_pca9685 = .ok q ∧ q.bus.regs 0xFE = 100 := by
  refine ⟨by norm_num [prescale, pyTrunc], by norm_num [round_eq], ⟨_, rfl, ?_⟩⟩
  show prescale pca60.frequency = 100
  norm_num [pca60, prescale, pyTrunc]

/-- C3 (amended): for every positive supported frequency (0 < f, f at most
6000 Hz), the prescale computed at construction and written to register 0xFE
equals the truncation toward zero, here equal to the floor, of
25000000 / (4096 * f) - 1 (not the rounding to nearest). -/
theorem prescale_floor_formula (p : PCA9685) (hf0 : 0 < p.frequency)
    (hf : p.frequency ≤ 6000) (h : p.bus.isOpen = true) :
    ∃ q, p.init_pca9685 = .ok q ∧
      q.bus.regs 0xFE = ⌊(25000000 : ℚ) / (4096 * p.frequency) - 1⌋ := by
  have h41 : (0 : ℚ) < 4096 * p.frequency := by positivity
  have h1 : (1 : ℚ) ≤ 25000000 / (4096 * p.frequency) := by
    rw [le_div_iff₀ h41]
    nlinarith
  have hpre : prescale p.frequency =
      ⌊(25000000 : ℚ) / (4096 * p.frequency) - 1⌋ := by
    unfold prescale
    exact pyTrunc_of_nonneg (by linarith)
  unfold PCA9685.init_pca9685 Bus.write_byte_data Bus.read_byte_data
  simp only [h, if_true, exceptBindOk]
  refine ⟨_, rfl, ?_⟩
  simp only []
  split_ifs <;> first | exact hpre | (exfalso; omega)

/-- Witness for prescale_floor_formula at frequency 60. -/
theorem prescale_floor_formula_witness :
    ∃ q, pca60.init_pca9685 = .ok q ∧
      q.bus.regs 0xFE = ⌊(25000000 : ℚ) / (4096 * pca60.frequency) - 1⌋ :=
  prescale_floor_formula pca60 (by norm_num [pca60]) (by norm_num [pca60]) rfl

/-- C4: the computed prescale value is monotonically non-increasing in the
operating frequency, and at 60 Hz it equals exactly 100. -/
theorem prescale_antitone :
    (∀ f1 f2 : ℚ, 0 < f1 → f1 ≤ f2 → prescale f2 ≤ prescale f1) ∧
      prescale 60 = 100 := by
  constructor
  · intro f1 f2 h1 h12
    unfold prescale
    apply pyTrunc_mono
    have ha : (0 : ℚ) < 4096 * f1 := by positivity
    have hd : (25000000 : ℚ) / (4096 * f2) ≤ 25000000 / (4096 * f1) := by
      gcongr
    linarith
  · norm_num [prescale, pyTrunc]

/-- Witness for prescale_antitone at the frequency pair (50, 60). -/
theorem prescale_antitone_witness :
    (0 : ℚ) < 50 ∧ (50 : ℚ) ≤ 60 ∧ prescale 60 ≤ prescale 50 :=
  ⟨by norm_num, by norm_num, prescale_antitone.1 50 60 (by norm_num) (by norm_num)⟩

/-- C2 counterexample: at frequency 60 and pulse width 1.7 ms the code
converts to int(417.792) = 417 ticks, while round(1.7 * 60 * 4096 / 1000)
is 418; the conversion truncates rather than rounds. -/
theorem duty_conversion_truncates_cex :
    dutyTicks 60 1.7 = 417 ∧ round ((1.7 : ℚ) * 60 * 4096 / 1000) = 418 ∧
      (417 : ℤ) ≠ 418 := by
  refine ⟨by norm_num [dutyTicks, pyTrunc], by norm_num [round_eq], by decide⟩

/-- C2 (amended): for every pulse width and positive frequency, the duty
value the code converts to is the truncation toward zero of
pulse_ms * f * 4096 / 1000 (not the rounding to nearest). -/
theorem duty_conversion_trunc (f pulse_ms : ℚ) (hf : 0 < f) :
    dutyTicks f pulse_ms = pyTrunc (pulse_ms * f * 4096 / 1000) := by
  unfold dutyTicks
  congr 1
  have hne : f ≠ 0 := hf.ne'
  field_simp
  ring

/-- Witness for duty_conversion_trunc at frequency 60 and pulse 1.7 ms. -/
theorem duty_conversion_trunc_witness :
    (0 : ℚ) < 60 ∧ dutyTicks 60 1.7 = pyTrunc ((1.7 : ℚ) * 60 * 4096 / 1000) :=
  ⟨by norm_num, duty_conversion_trunc 60 1.7 (by norm_num)⟩

/-- set_steering forwards the computed steering pulse to set_pulse on the
steering channel and wraps the updated PWM object back into the controller. -/
theorem set_steering_eq (c : DonkeyCarController) (angle : ℚ) :
    c.set_steering angle =
      (c.pwm.set_pulse c.steering_channel (c.steering_pulse angle)).map
        (fun pw => { c with pwm := pw }) := by
  unfold DonkeyCarController.set_steering
  cases c.pwm.set_pulse c.steering_channel (c.steering_pulse angle) <;> rfl

/-- set_throttle forwards the computed throttle pulse to set_pulse on the
throttle channel and wraps the updated PWM object back into the controller. -/
theorem set_throttle_eq (c : DonkeyCarController) (speed : ℚ) :
    c.set_throttle speed =
      (c.pwm.set_pulse c.throttle_channel (c.throttle_pulse speed)).map
        (fun pw => { c with pwm := pw }) := by
  unfold DonkeyCarController.set_throttle
  cases c.pwm.set_pulse c.throttle_channel (c.throttle_pulse speed) <;> rfl

/-- C5: with the constructor calibration (steering channel 0, center 1.8 ms,
half-range 0.5 ms; throttle channel 1, center 1.5 ms, half-range 0.4 ms),
setSteering commands 1.3 / 2.3 / 1.8 ms for -1 / 1 / 0 and setThrottle
commands 1.7 ms for 0.5; in general the commanded pulse equals
center + clamp(command) * halfRange, forwarded on the calibrated channel. -/
theorem mapper_scenarios (p : PCA9685) :
    (mkDonkeyCarController p).steering_channel = 0 ∧
    (mkDonkeyCarController p).throttle_channel = 1 ∧
    (mkDonkeyCarController p).steering_pulse (-1) = 1.3 ∧
    (mkDonkeyCarController p).steering_pulse 1 = 2.3 ∧
    (mkDonkeyCarController p).steering_pulse 0 = 1.8 ∧
    (mkDonkeyCarController p).throttle_pulse 0.5 = 1.7 ∧
    (∀ cmd : ℚ, (mkDonkeyCarController p).steering_pulse cmd
        = 1.8 + clampCmd cmd * 0.5) ∧
    (∀ cmd : ℚ, (mkDonkeyCarController p).throttle_pulse cmd
        = 1.5 + clampCmd cmd * 0.4) ∧
    (∀ cmd : ℚ, (mkDonkeyCarController p).set_steering cmd
        = (p.set_pulse 0 (1.8 + clampCmd cmd * 0.5)).map
            (fun pw => { mkDonkeyCarController p with pwm := pw })) ∧
    (∀ cmd : ℚ, (mkDonkeyCarController p).set_throttle cmd
        = (p.set_pulse 1 (1.5 + clampCmd cmd * 0.4)).map
            (fun pw => { mkDonkeyCarController p with pwm := pw })) := by
  refine ⟨rfl, rfl, ?_, ?_, ?_, ?_, fun cmd => rfl, fun cmd => rfl,
      fun cmd => set_steering_eq (mkDonkeyCarController p) cmd,
      fun cmd => set_throttle_eq (mkDonkeyCarController p) cmd⟩ <;>
    norm_num [mkDonkeyCarController, DonkeyCarController.steering_pulse,
      DonkeyCarController.throttle_pulse, clampCmd]

/-- C1 counterexample: the demo-script implementation of set_pulse performs
no clamping: at 3.0 ms (outside [0.5, 2.5]) it writes the tick bytes of the
raw value 737 = int(3.0 * 60 * 4096 / 1000), while the tick value of the
clamped width 2.5 ms is 614; so the written ticks are not those of the
clamped pulse width. -/
theorem demo_set_pulse_unclamped_cex :
    (∃ q, pca60.demo_set_pulse 0 3 = .ok q ∧
      q.bus.regs 8 + 256 * q.bus.regs 9 = 737) ∧
    dutyTicks 60 (clampPulse 3) = 614 ∧ (737 : ℤ) ≠ 614 := by
  refine ⟨?_, by norm_num [dutyTicks, clampPulse, pyTrunc], by decide⟩
  obtain ⟨q, hq, _, _, _, h8, h9⟩ := demo_set_pulse_ok pca60 0 3 rfl
  have hd : dutyTicks pca60.frequency 3 = 737 := by
    norm_num [pca60, dutyTicks, pyTrunc]
  rw [hd] at h8 h9
  norm_num [pyAnd255, pyShr8] at h8 h9
  refine ⟨q, hq, ?_⟩
  rw [h8, h9]
  norm_num

/-- C1 (amended): the donkey_motor_test implementation of set_pulse first
clamps the pulse width into [0.5, 2.5] (silently, never rejecting, passing
in-range values through unchanged) and writes the tick bytes of the clamped
width; the demo_script implementation converts the pulse width unclamped. -/
theorem set_pulse_clamps (p : PCA9685) (ch : ℤ) (pulse_ms : ℚ)
    (h : p.bus.isOpen = true) :
    (0.5 : ℚ) ≤ clampPulse pulse_ms ∧ clampPulse pulse_ms ≤ 2.5 ∧
    ((0.5 : ℚ) ≤ pulse_ms → pulse_ms ≤ 2.5 → clampPulse pulse_ms = pulse_ms) ∧
    (∃ q, p.set_pulse ch pulse_ms = .ok q ∧
      q.bus.regs (0x06 + 4 * ch + 2) =
        pyAnd255 (dutyTicks p.frequency (clampPulse pulse_ms)) ∧
      q.bus.regs (0x06 + 4 * ch + 3) =
        pyShr8 (dutyTicks p.frequency (clampPulse pulse_ms))) ∧
    (∃ q2, p.demo_set_pulse ch pulse_ms = .ok q2 ∧
      q2.bus.regs (0x06 + 4 * ch + 2) = pyAnd255 (dutyTicks p.frequency pulse_ms) ∧
      q2.bus.regs (0x06 + 4 * ch + 3) = pyShr8 (dutyTicks p.frequency pulse_ms)) := by
  obtain ⟨hb1, hb2⟩ := clampPulse_bounds pulse_ms
  refine ⟨hb1, hb2, fun h1 h2 => clampPulse_of_mem h1 h2, ?_, ?_⟩
  · obtain ⟨q, hq, _, _, _, _, _, h7, h8⟩ :=
      set_pwm_ok p ch 0 (dutyTicks p.frequency (clampPulse pulse_ms)) h
    exact ⟨q, hq, h7, h8⟩
  · obtain ⟨q2, hq2, _, _, _, h8, h9⟩ := demo_set_pulse_ok p ch pulse_ms h
    exact ⟨q2, hq2, h8, h9⟩

/-- Witness for set_pulse_clamps at the out-of-range input 3.0 ms on the
fresh controller. -/
theorem set_pulse_clamps_witness :
    (0.5 : ℚ) ≤ clampPulse 3 ∧ clampPulse 3 ≤ 2.5 ∧
    ((0.5 : ℚ) ≤ 3 → (3 : ℚ) ≤ 2.5 → clampPulse 3 = 3) ∧
    (∃ q, pca60.set_pulse 0 3 = .ok q ∧
      q.bus.regs (0x06 + 4 * 0 + 2) =
        pyAnd255 (dutyTicks pca60.frequency (clampPulse 3)) ∧
      q.bus.regs (0x06 + 4 * 0 + 3) =
        pyShr8 (dutyTicks pca60.frequency (clampPulse 3))) ∧
    (∃ q2, pca60.demo_set_pulse 0 3 = .ok q2 ∧
      q2.bus.regs (0x06 + 4 * 0 + 2) = pyAnd255 (dutyTicks pca60.frequency 3) ∧
      q2.bus.regs (0x06 + 4 * 0 + 3) = pyShr8 (dutyTicks pca60.frequency 3)) :=
  set_pulse_clamps pca60 0 3 rfl

/-- C6: after stop_all_channels returns, every one of the four registers
(ON low/high, OFF low/high) of every one of the 16 channels reads 0,
regardless of what had been written to any channel beforehand. -/
theorem stop_all_channels_zeroes (p : PCA9685) (h : p.bus.isOpen = true)
    (c : ℕ) (hc : c ≤ 15) (j : ℤ) (hj0 : 0 ≤ j) (hj3 : j ≤ 3) :
    ∃ q, p.stop_all_channels = .ok q ∧
      q.bus.regs (0x06 + 4 * (c : ℤ) + j) = 0 := by
  obtain ⟨q, hq, _, _, hzero⟩ := stop_fold_ok (List.range 16) p h
  refine ⟨q, hq, hzero c ?_ j hj0 hj3⟩
  simp only [List.mem_range]
  omega

/-- Witness for stop_all_channels_zeroes: channel 3, OFF low register, on
the fresh controller. -/
theorem stop_all_channels_zeroes_witness :
    ∃ q, pca60.stop_all_channels = .ok q ∧
      q.bus.regs (0x06 + 4 * ((3 : ℕ) : ℤ) + 2) = 0 :=
  stop_all_channels_zeroes pca60 rfl 3 (by norm_num) 2 (by norm_num) (by norm_num)

/-- C7 counterexample: set_pwm does not validate the channel index: for the
out-of-range channel 16 it succeeds (no InvalidChannel failure) and performs
the register writes at 0x46..0x49, here shown for the OFF pair of ticks 611. -/
theorem set_pwm_no_validation_cex :
    ∃ q, pca60.set_pwm 16 0 611 = .ok q ∧
      q.bus.regs 72 = 99 ∧ q.bus.regs 73 = 2 := by
  obtain ⟨q, hq, _, _, _, _, _, h7, h8⟩ := set_pwm_ok pca60 16 0 611 rfl
  norm_num [pyAnd255, pyShr8] at h7 h8
  exact ⟨q, hq, h7, h8⟩

/-- C7 (amended): set_pwm performs no channel validation: for every integer
channel (inside or outside [0, 15]) it succeeds on an open bus and writes the
four consecutive registers starting at 0x06 + 4*channel with the bytes of
the on/off tick pair; no InvalidChannel error exists in the code. -/
theorem set_pwm_writes_registers (p : PCA9685) (ch onTicks offTicks : ℤ)
    (h : p.bus.isOpen = true) :
    ∃ q, p.set_pwm ch onTicks offTicks = .ok q ∧
      q.bus.regs (0x06 + 4 * ch) = pyAnd255 onTicks ∧
      q.bus.regs (0x06 + 4 * ch + 1) = pyShr8 onTicks ∧
      q.bus.regs (0x06 + 4 * ch + 2) = pyAnd255 offTicks ∧
      q.bus.regs (0x06 + 4 * ch + 3) = pyShr8 offTicks := by
  obtain ⟨q, hq, _, _, _, h5, h6, h7, h8⟩ := set_pwm_ok p ch onTicks offTicks h
  exact ⟨q, hq, h5, h6, h7, h8⟩

/-- Witness for set_pwm_writes_registers on channel 0 with ticks (0, 614). -/
theorem set_pwm_writes_registers_witness :
    ∃ q, pca60.set_pwm 0 0 614 = .ok q ∧
      q.bus.regs (0x06 + 4 * 0) = pyAnd255 0 ∧
      q.bus.regs (0x06 + 4 * 0 + 1) = pyShr8 0 ∧
      q.bus.regs (0x06 + 4 * 0 + 2) = pyAnd255 614 ∧
      q.bus.regs (0x06 + 4 * 0 + 3) = pyShr8 614 :=
  set_pwm_writes_registers pca60 0 0 614 rfl

/-- C8: cleanup is not idempotent. The first cleanup on the fresh demo
controller succeeds and leaves the bus closed; calling cleanup again then
fails with a transfer error, because its leading stop() issues pulse writes
on the already-closed bus. The specification requires shutdown to be safe to
invoke unconditionally (the SIGINT handler does exactly that), so this is a
defect of the code, demonstrated here as the claim requires evaluating the
second call. -/
theorem cleanup_second_call_fails :
    ∃ d1, demo60.cleanup = .ok d1 ∧ d1.pwm.bus.isOpen = false ∧
      d1.cleanup = .error BusError.TransferError :=
  ⟨_, rfl, rfl, rfl⟩

/-- C9 counterexample: the demo-script set_pulse at 20 ms (frequency 60)
computes the duty value 4915, which exceeds the 12-bit maximum 4095, and
writes its bytes to the OFF registers of channel 1; so the OFF tick written
is not always within [0, 4095] for every input pulse width. -/
theorem demo_duty_overflow_cex :
    dutyTicks 60 20 = 4915 ∧ ¬(4915 : ℤ) ≤ 4095 ∧
      (∃ q, pca60.demo_set_pulse 1 20 = .ok q ∧
        q.bus.regs 12 = pyAnd255 4915 ∧ q.bus.regs 13 = pyShr8 4915) := by
  refine ⟨by norm_num [dutyTicks, pyTrunc], by norm_num, ?_⟩
  obtain ⟨q, hq, _, _, _, h8, h9⟩ := demo_set_pulse_ok pca60 1 20 rfl
  have hd : dutyTicks pca60.frequency 20 = 4915 := by
    norm_num [pca60, dutyTicks, pyTrunc]
  rw [hd] at h8 h9
  norm_num at h8 h9
  exact ⟨q, hq, h8, h9⟩

/-- C9 (amended): for the clamping implementation (donkey_motor_test
set_pulse) at the repository frequency 60, the ON tick pair written is
always 0 and the OFF duty value is always within [0, 4095], for every input
pulse width; the non-clamping demo implementation still always writes ON
ticks 0, but its OFF value is in range only for in-range pulse widths. -/
theorem clamped_duty_invariant (p : PCA9685) (ch : ℤ) (pulse_ms : ℚ)
    (hf : p.frequency = 60) (h : p.bus.isOpen = true) :
    0 ≤ dutyTicks p.frequency (clampPulse pulse_ms) ∧
    dutyTicks p.frequency (clampPulse pulse_ms) ≤ 4095 ∧
    (∃ q, p.set_pulse ch pulse_ms = .ok q ∧
      q.bus.regs (0x06 + 4 * ch) = 0 ∧ q.bus.regs (0x06 + 4 * ch + 1) = 0) ∧
    (∀ pm2 : ℚ, ∃ q2, p.demo_set_pulse ch pm2 = .ok q2 ∧
      q2.bus.regs (0x06 + 4 * ch) = 0 ∧ q2.bus.regs (0x06 + 4 * ch + 1) = 0) := by
  have hbounds := dutyTicks60_clamp_bounds pulse_ms
  rw [hf]
  refine ⟨by omega, by omega, ?_, ?_⟩
  · obtain ⟨q, hq, _, _, _, h5, h6, _, _⟩ :=
      set_pwm_ok p ch 0 (dutyTicks p.frequency (clampPulse pulse_ms)) h
    refine ⟨q, hq, ?_, ?_⟩
    · rw [h5]; rfl
    · rw [h6]; rfl
  · intro pm2
    obtain ⟨q2, hq2, _, h3, h4, _, _⟩ := demo_set_pulse_ok p ch pm2 h
    exact ⟨q2, hq2, h3, h4⟩

/-- Witness for clamped_duty_invariant on channel 0 at 3.0 ms. -/
theorem clamped_duty_invariant_witness :
    0 ≤ dutyTicks pca60.frequency (clampPulse 3) ∧
    dutyTicks pca60.frequency (clampPulse 3) ≤ 4095 ∧
    (∃ q, pca60.set_pulse 0 3 = .ok q ∧
      q.bus.regs (0x06 + 4 * 0) = 0 ∧ q.bus.regs (0x06 + 4 * 0 + 1) = 0) ∧
    (∀ pm2 : ℚ, ∃ q2, pca60.demo_set_pulse 0 pm2 = .ok q2 ∧
      q2.bus.regs (0x06 + 4 * 0) = 0 ∧ q2.bus.regs (0x06 + 4 * 0 + 1) = 0) := by
  have := clamped_duty_invariant pca60 0 3 rfl rfl
  exact this

/-- C10: in the clamping implementation of set_pulse, for every channel in
[0, 15], every pulse width, and frequency 60, each of the four byte values
written to the channel registers lies in [0, 255], and the OFF high byte
(the tick value shifted right by 8) never exceeds 2. -/
theorem set_pulse_bytes_in_range (p : PCA9685) (ch : ℤ) (pulse_ms : ℚ)
    (hf : p.frequency = 60) (h : p.bus.isOpen = true)
    (_hch0 : 0 ≤ ch) (_hch1 : ch ≤ 15) :
    ∃ q, p.set_pulse ch pulse_ms = .ok q ∧
      (0 ≤ q.bus.regs (0x06 + 4 * ch) ∧ q.bus.regs (0x06 + 4 * ch) ≤ 255) ∧
      (0 ≤ q.bus.regs (0x06 + 4 * ch + 1) ∧
        q.bus.regs (0x06 + 4 * ch + 1) ≤ 255) ∧
      (0 ≤ q.bus.regs (0x06 + 4 * ch + 2) ∧
        q.bus.regs (0x06 + 4 * ch + 2) ≤ 255) ∧
      (0 ≤ q.bus.regs (0x06 + 4 * ch + 3) ∧
        q.bus.regs (0x06 + 4 * ch + 3) ≤ 255) ∧
      q.bus.regs (0x06 + 4 * ch + 3) ≤ 2 := by
  obtain ⟨hlo, hhi⟩ := dutyTicks60_clamp_bounds pulse_ms
  rw [← hf] at hlo hhi
  obtain ⟨q, hq, _, _, _, h5, h6, h7, h8⟩ :=
    set_pwm_ok p ch 0 (dutyTicks p.frequency (clampPulse pulse_ms)) h
  refine ⟨q, hq, ?_, ?_, ?_, ?_, ?_⟩
  · rw [h5]; unfold pyAnd255; omega
  · rw [h6]; unfold pyShr8; omega
  · rw [h7]; unfold pyAnd255; omega
  · rw [h8]; unfold pyShr8; omega
  · rw [h8]; unfold pyShr8; omega

/-- Witness for set_pulse_bytes_in_range on channel 2 at 2.0 ms. -/
theorem set_pulse_bytes_in_range_witness :
    ∃ q, pca60.set_pulse 2 2 = .ok q ∧
      (0 ≤ q.bus.regs (0x06 + 4 * 2) ∧ q.bus.regs (0x06 + 4 * 2) ≤ 255) ∧
      (0 ≤ q.bus.regs (0x06 + 4 * 2 + 1) ∧
        q.bus.regs (0x06 + 4 * 2 + 1) ≤ 255) ∧
      (0 ≤ q.bus.regs (0x06 + 4 * 2 + 2) ∧
        q.bus.regs (0x06 + 4 * 2 + 2) ≤ 255) ∧
      (0 ≤ q.bus.regs (0x06 + 4 * 2 + 3) ∧
        q.bus.regs (0x06 + 4 * 2 + 3) ≤ 255) ∧
      q.bus.regs (0x06 + 4 * 2 + 3) ≤ 2 :=
  set_pulse_bytes_in_range pca60 2 2 rfl rfl (by norm_num) (by norm_num)
